import Mathlib

/-!
Verification of the SmartBusArrival repository against its specification.

The development shallowly embeds the two source files:

* `train_model.py` — synthetic dataset generation (vocabularies, the five
  additive delay terms, clipping and rounding of the label), the label
  encoding used for categorical features, feature scaling, and the linear
  model applied at serving time.
* `app.py` — the `/predict` endpoint: extraction of the raw JSON fields
  (with Python `dict.get` defaults and the `int(...)` coercion of
  `stop_sequence`), the validation cascade, the encoder/scaler replay and
  the final rounded linear prediction.

Machine floats are modelled by `ℚ`; `numpy.round(..., 2)` and Python
`round(x, 2)` are modelled by round-half-to-even on hundredths over `ℚ`.
The NumPy global random generator is modelled as an abstract deterministic
state machine (`RNG`): each drawing primitive is a pure function from the
generator state to a value and a successor state, which is exactly the
reproducibility contract of a seeded `numpy.random`.
-/

namespace SmartBus

/-! ### Vocabularies (train_model.py lines 20-35) -/

def BUS_NUMBERS : List String :=
  ["BUS001", "BUS002", "BUS003", "BUS004", "BUS005", "BUS006", "BUS007", "BUS008"]

def DESTINATIONS : List String :=
  ["Nagercoil", "Kanyakumari", "Marthandam", "Colachel", "Thuckalay",
   "Kulasekaram", "Padmanabhapuram", "Suchindram"]

def DAYS_OF_WEEK : List String :=
  ["Monday", "Tuesday", "Wednesday", "Thursday", "Friday", "Saturday", "Sunday"]

/-! ### Rounding and clipping

`np.clip(x, 1, 20)` clamps into the interval; `.round(2)` rounds to two
decimal places with round-half-to-even tie breaking (IEEE / NumPy rule),
modelled exactly over `ℚ`. We use `Rat.floor` (a computable function) so
that concrete instances evaluate inside the kernel. -/

def roundHalfEven (x : ℚ) : ℤ :=
  let n : ℤ := Rat.floor x
  if x - (n : ℚ) < 1/2 then n
  else if 1/2 < x - (n : ℚ) then n + 1
  else if n % 2 = 0 then n else n + 1

def roundTo2 (x : ℚ) : ℚ := (roundHalfEven (100 * x) : ℚ) / 100

def clip (x lo hi : ℚ) : ℚ := max lo (min x hi)

/-! ### The five additive terms of the label (train_model.py lines 63-105) -/

def destination_base_time : List (String × ℚ) :=
  [("Nagercoil", 2), ("Kanyakumari", 8), ("Marthandam", 5), ("Colachel", 10),
   ("Thuckalay", 12), ("Kulasekaram", 6), ("Padmanabhapuram", 3), ("Suchindram", 7)]

def base_time (destination : String) : ℚ :=
  ((destination_base_time.lookup destination).getD 6)

def stop_delay (stop_sequence : ℤ) : ℚ := (stop_sequence : ℚ) * (1/2)

def time_delay (hour : ℤ) : ℚ :=
  if 6 ≤ hour ∧ hour < 12 then 3/2
  else if 12 ≤ hour ∧ hour < 18 then 1/2
  else if 18 ≤ hour ∧ hour < 21 then 2
  else 1

def day_factor (day : String) : ℚ :=
  if day = "Saturday" ∨ day = "Sunday" then 1 else 1/2

def bus_delays : List (String × ℚ) :=
  [("BUS001", 1/2), ("BUS002", 1), ("BUS003", 0), ("BUS004", 4/5),
   ("BUS005", 3/10), ("BUS006", 6/5), ("BUS007", 1/5), ("BUS008", 7/10)]

def bus_delay (bus_number : String) : ℚ :=
  ((bus_delays.lookup bus_number).getD (1/2))

/-- Label of one generated record (train_model.py lines 104-107):
`clip(base + stop_delay + time_delay + day_factor + bus_delay + noise, 1, 20)`
rounded to two decimal places. -/
def arrival_minutes (bus destination day : String) (hour stop : ℤ) (noise : ℚ) : ℚ :=
  roundTo2 (clip (base_time destination + stop_delay stop + time_delay hour +
    day_factor day + bus_delay bus + noise) 1 20)

/-! ### The dataset generator (train_model.py lines 37-116) -/

structure TripRecord where
  bus_number : String
  destination : String
  day_of_week : String
  time_period : ℤ
  stop_sequence : ℤ
  arrival_time : ℚ
deriving DecidableEq

/-- Abstract deterministic pseudo-random generator: each NumPy drawing
primitive used by `generate_dataset` is a pure function of the generator
state.  `choice l` models `np.random.choice(l)`, `randint lo hi` models
`np.random.randint(lo, hi)` and `normal mu sigma` models
`np.random.normal(mu, sigma)`. -/
structure RNG (σ : Type) where
  choice : List String → σ → String × σ
  randint : ℤ → ℤ → σ → ℤ × σ
  normal : ℚ → ℚ → σ → ℚ × σ

def drawN {σ α : Type} (f : σ → α × σ) : ℕ → σ → List α × σ
  | 0, s => ([], s)
  | n + 1, s =>
    let p := f s
    let rest := drawN f n p.2
    (p.1 :: rest.1, rest.2)

def zip5 {α β γ δ ε : Type} :
    List α → List β → List γ → List δ → List ε → List (α × β × γ × δ × ε)
  | a :: as, b :: bs, c :: cs, d :: ds, e :: es =>
    (a, b, c, d, e) :: zip5 as bs cs ds es
  | _, _, _, _, _ => []

/-- The per-row loop of `generate_dataset`: one `np.random.normal(0, 0.5)`
draw per row, and the label computed by `arrival_minutes`. -/
def gen_labels {σ : Type} (rng : RNG σ) :
    List (String × String × String × ℤ × ℤ) → σ → List TripRecord × σ
  | [], s => ([], s)
  | (b, d, dy, h, st) :: rest, s =>
    let p := rng.normal 0 (1/2) s
    let tail := gen_labels rng rest p.2
    (⟨b, d, dy, h, st, arrival_minutes b d dy h st p.1⟩ :: tail.1, tail.2)

/-- `generate_dataset(num_records)` (train_model.py lines 37-116): the five
columns are drawn first, in source order, then the labels are computed row
by row. -/
def generate_dataset {σ : Type} (rng : RNG σ) (num_records : ℕ) (s : σ) :
    List TripRecord × σ :=
  let buses := drawN (rng.choice BUS_NUMBERS) num_records s
  let dests := drawN (rng.choice DESTINATIONS) num_records buses.2
  let days := drawN (rng.choice DAYS_OF_WEEK) num_records dests.2
  let hours := drawN (rng.randint 0 24) num_records days.2
  let stops := drawN (rng.randint 1 8) num_records hours.2
  gen_labels rng (zip5 buses.1 dests.1 days.1 hours.1 stops.1) stops.2

/-- A trivial concrete generator state machine, used to exercise the
generator on concrete inputs. -/
def constRNG : RNG Unit where
  choice := fun l _ => (l.headD "", ())
  randint := fun lo _ _ => (lo, ())
  normal := fun mu _ _ => (mu, ())

/-! ### Label encoding (train_model.py lines 141-156, app.py lines 102-104)

`sklearn.preprocessing.LabelEncoder` (the external collaborator used by
`preprocess_data`): `fit` stores the sorted distinct values, `transform`
maps a value to its index in that sorted array and raises on an unseen
value, `inverse_transform` indexes into the array. -/

def label_fit (values : List String) : List String :=
  (values.dedup).mergeSort (fun a b => decide (a ≤ b))

def label_transform (classes : List String) (v : String) : Except String ℕ :=
  if v ∈ classes then .ok (classes.indexOf v)
  else .error ("y contains previously unseen labels: " ++ v)

def label_inverse (classes : List String) (code : ℕ) : Option String :=
  classes.get? code

/-! ### Feature scaling and the linear model (serving side of app.py)

`StandardScaler.transform` subtracts the per-feature mean and divides by
the per-feature standard deviation; `Ridge.predict` is the dot product of
the coefficient vector with the scaled features plus the intercept. -/

def scaler_transform (mean std features : List ℚ) : List ℚ :=
  List.zipWith (fun p s => p / s) (List.zipWith (fun x m => x - m) features mean) std

def model_predict (coef : List ℚ) (intercept : ℚ) (features : List ℚ) : ℚ :=
  (List.zipWith (fun c x => c * x) coef features).sum + intercept

/-- The persisted artifact set loaded by app.py at startup: the three
fitted encoder class arrays, the scaler statistics, and the linear model
parameters. -/
structure Artifacts where
  bus_encoder : List String
  destination_encoder : List String
  day_encoder : List String
  scaler_mean : List ℚ
  scaler_std : List ℚ
  coef : List ℚ
  intercept : ℚ

/-! ### The /predict endpoint (app.py lines 41-144) -/

/-- A JSON field value as seen by `request.get_json()`, restricted to the
shapes the claims exercise: a string, an integer, or JSON null (Python
`None`). -/
inductive Val where
  | vStr (s : String)
  | vInt (n : ℤ)
  | vNull
deriving DecidableEq

/-- Python truthiness of a field value (`if not bus_number`). -/
def truthy : Val → Prop
  | .vNull => False
  | .vStr s => s ≠ ""
  | .vInt n => n ≠ 0

instance : ∀ v, Decidable (truthy v)
  | .vNull => isFalse id
  | .vStr s => inferInstanceAs (Decidable (s ≠ ""))
  | .vInt n => inferInstanceAs (Decidable (n ≠ 0))

/-- Python `value in list_of_strings`: only a string can compare equal to
a member of a list of strings. -/
def valMem (v : Val) (l : List String) : Prop :=
  match v with
  | .vStr s => s ∈ l
  | _ => False

instance : ∀ v l, Decidable (valMem v l)
  | .vStr s, l => inferInstanceAs (Decidable (s ∈ l))
  | .vInt _, _ => isFalse id
  | .vNull, _ => isFalse id

/-- Decimal integer literal parser: an optional sign followed by at least
one digit.  This is the subset of Python `int(str)` behaviour the claims
exercise. -/
def parseDigits : List Char → Option ℕ
  | [] => none
  | [c] => if c.isDigit then some (c.toNat - 48) else none
  | c :: rest =>
    if c.isDigit then
      match parseDigits rest with
      | some n => some ((c.toNat - 48) * 10 ^ rest.length + n)
      | none => none
    else none

def parseIntString (s : String) : Option ℤ :=
  match s.data with
  | '-' :: rest => (parseDigits rest).map (fun n => -(n : ℤ))
  | '+' :: rest => (parseDigits rest).map (fun n => (n : ℤ))
  | l => (parseDigits l).map (fun n => (n : ℤ))

/-- Python `int(...)` applied to a JSON field value: an integer is kept,
a string is parsed as a decimal integer (optionally signed) and raises
`ValueError` otherwise, `None` raises `TypeError`.  The exception message
text is abbreviated. -/
def pyInt : Val → Except String ℤ
  | .vInt n => .ok n
  | .vStr s => match parseIntString s with
    | some n => .ok n
    | none => .error ("invalid literal for int() with base 10: " ++ s)
  | .vNull => .error "int() argument must be a string or a number, not NoneType"

/-- The raw JSON body of a /predict request: each field is absent
(`none`) or present with a value. -/
structure RawRequest where
  bus_number : Option Val
  destination : Option Val
  day_of_week : Option Val
  time_period : Option Val
  stop_sequence : Option Val

/-- Validation vocabulary, app.py line 70. -/
def valid_buses : List String :=
  ["BUS001", "BUS002", "BUS003", "BUS004", "BUS005", "BUS006", "BUS007", "BUS008"]

/-- Validation vocabulary, app.py line 71. -/
def valid_destinations : List String :=
  ["Nagercoil", "Kanyakumari", "Marthandam", "Colachel", "Thuckalay",
   "Kulasekaram", "Padmanabhapuram", "Suchindram"]

/-- Validation vocabulary, app.py line 72. -/
def valid_days : List String :=
  ["Monday", "Tuesday", "Wednesday", "Thursday", "Friday", "Saturday", "Sunday"]

def bus_error_msg : String :=
  "Invalid bus number. Valid buses: BUS001, BUS002, BUS003, BUS004, BUS005, BUS006, BUS007, BUS008"

def destination_error_msg : String :=
  "Invalid destination. Valid destinations: Nagercoil, Kanyakumari, Marthandam, Colachel, Thuckalay, Kulasekaram, Padmanabhapuram, Suchindram"

def day_error_msg : String :=
  "Invalid day. Valid days: Monday, Tuesday, Wednesday, Thursday, Friday, Saturday, Sunday"

def time_error_msg : String :=
  "Invalid time period. Time must be hour (0-23)"

def stop_error_msg : String :=
  "Invalid stop sequence. Enter between 1 and 7"

def validation_messages : List String :=
  [bus_error_msg, destination_error_msg, day_error_msg, time_error_msg, stop_error_msg]

/-- The validation cascade of app.py lines 74-99, in source order.  The
time-period check folds the Python `is None or not isinstance(..., int)`
test into the match on the value shape. -/
def validateVal (bus destination day time : Val) (stop : ℤ) : Option String :=
  if ¬ truthy bus ∨ ¬ valMem bus valid_buses then some bus_error_msg
  else if ¬ truthy destination ∨ ¬ valMem destination valid_destinations then
    some destination_error_msg
  else if ¬ valMem day valid_days then some day_error_msg
  else
    match time with
    | .vInt h =>
      if h < 0 ∨ 23 < h then some time_error_msg
      else if stop < 1 ∨ 7 < stop then some stop_error_msg
      else none
    | _ => some time_error_msg

/-- Underlying string of a field value known to be a string (used after
membership validation has established the shape). -/
def strOf : Val → String
  | .vStr s => s
  | _ => ""

/-- Underlying integer of a field value known to be an integer. -/
def intOf : Val → ℤ
  | .vInt n => n
  | _ => 0

/-- Body of a successful prediction response (app.py lines 127-137). -/
structure PredictBody where
  predicted_arrival_time : ℚ
  bus_number : String
  destination : String
  day_of_week : String
  time_period : ℤ
  stop_sequence : ℤ
  message : String
deriving DecidableEq

/-- Outcome of a /predict call: HTTP 200 with a body, HTTP 400 with a
validation message, or HTTP 500 with a generic prediction error. -/
inductive Resp where
  | ok (body : PredictBody)
  | clientError (msg : String)
  | serverError (msg : String)
deriving DecidableEq

/-- The /predict endpoint (app.py lines 41-144).  Field extraction with
`dict.get` defaults, the `int` coercion of `stop_sequence` (whose failure
is caught by the surrounding `try` and reported as HTTP 500), the
validation cascade, encoder replay, scaling, linear prediction, and
rounding. -/
def predict (A : Artifacts) (req : RawRequest) : Resp :=
  let bus := req.bus_number.getD .vNull
  let destination := req.destination.getD .vNull
  let day := req.day_of_week.getD (.vStr "Monday")
  let time := req.time_period.getD .vNull
  match pyInt (req.stop_sequence.getD (.vInt 1)) with
  | .error e => .serverError ("Prediction error: " ++ e)
  | .ok stop =>
    match validateVal bus destination day time stop with
    | some msg => .clientError msg
    | none =>
      match label_transform A.bus_encoder (strOf bus) with
      | .error e => .serverError ("Prediction error: " ++ e)
      | .ok bus_encoded =>
        match label_transform A.destination_encoder (strOf destination) with
        | .error e => .serverError ("Prediction error: " ++ e)
        | .ok destination_encoded =>
          match label_transform A.day_encoder (strOf day) with
          | .error e => .serverError ("Prediction error: " ++ e)
          | .ok day_encoded =>
            let h := intOf time
            let features : List ℚ :=
              [(bus_encoded : ℚ), (destination_encoded : ℚ), (day_encoded : ℚ),
               (h : ℚ), (stop : ℚ)]
            let scaled := scaler_transform A.scaler_mean A.scaler_std features
            let predicted_time := roundTo2 (model_predict A.coef A.intercept scaled)
            .ok
              { predicted_arrival_time := predicted_time
                bus_number := strOf bus
                destination := strOf destination
                day_of_week := strOf day
                time_period := h
                stop_sequence := stop
                message := "Bus " ++ strOf bus ++ " will arrive in approximately " ++
                  toString predicted_time ++ " minutes" }

/-! ## Helper definitions for concrete instances -/

/-- Artifact set with the three encoders fitted on the full declared
vocabularies, identity scaling, zero coefficients and intercept 25. -/
def demo_artifacts : Artifacts :=
  { bus_encoder := label_fit valid_buses
    destination_encoder := label_fit valid_destinations
    day_encoder := label_fit valid_days
    scaler_mean := [0, 0, 0, 0, 0]
    scaler_std := [1, 1, 1, 1, 1]
    coef := [0, 0, 0, 0, 0]
    intercept := 25 }

/-- The end-to-end scenario A request of the specification. -/
def demo_request : RawRequest :=
  ⟨some (.vStr "BUS001"), some (.vStr "Nagercoil"), some (.vStr "Monday"),
   some (.vInt 14), some (.vInt 3)⟩

/-- An arbitrary artifact set (empty tables). -/
def empty_artifacts : Artifacts := ⟨[], [], [], [], [], [], 0⟩

/-- Predicted arrival time of a response, when the response is successful. -/
def predicted_of : Resp → Option ℚ
  | .ok body => some body.predicted_arrival_time
  | _ => none

/-! ## Helper lemmas -/

theorem le_roundHalfEven {a : ℤ} {x : ℚ} (h : (a : ℚ) ≤ x) : a ≤ roundHalfEven x := by
  have hn : a ≤ Rat.floor x := Rat.le_floor.2 h
  simp only [roundHalfEven]
  split_ifs <;> omega

theorem roundHalfEven_le {b : ℤ} {x : ℚ} (h : x ≤ (b : ℚ)) : roundHalfEven x ≤ b := by
  have hfle : ((Rat.floor x : ℤ) : ℚ) ≤ x := Rat.le_floor.1 le_rfl
  have hfb : Rat.floor x ≤ b := by exact_mod_cast hfle.trans h
  simp only [roundHalfEven]
  split_ifs with h1 h2 h3
  · exact hfb
  all_goals {
    have hlt : Rat.floor x < b := by
      by_contra hc
      have hbf : (b : ℚ) ≤ ((Rat.floor x : ℤ) : ℚ) := by exact_mod_cast not_lt.1 hc
      exact h1 (by linarith)
    omega }

theorem roundTo2_bounds {x : ℚ} (hx1 : 1 ≤ x) (hx2 : x ≤ 20) :
    1 ≤ roundTo2 x ∧ roundTo2 x ≤ 20 := by
  unfold roundTo2
  have hlo : (100 : ℤ) ≤ roundHalfEven (100 * x) := by
    apply le_roundHalfEven; push_cast; linarith
  have hhi : roundHalfEven (100 * x) ≤ (2000 : ℤ) := by
    apply roundHalfEven_le; push_cast; linarith
  constructor
  · rw [le_div_iff₀ (by norm_num : (0:ℚ) < 100)]
    exact_mod_cast hlo
  · rw [div_le_iff₀ (by norm_num : (0:ℚ) < 100)]
    exact_mod_cast hhi

theorem clip_bounds (x : ℚ) : 1 ≤ clip x 1 20 ∧ clip x 1 20 ≤ 20 :=
  ⟨le_max_left _ _, max_le (by norm_num) (min_le_right _ _)⟩

theorem arrival_minutes_bounds (b d dy : String) (h st : ℤ) (noise : ℚ) :
    1 ≤ arrival_minutes b d dy h st noise ∧ arrival_minutes b d dy h st noise ≤ 20 := by
  unfold arrival_minutes
  exact roundTo2_bounds (clip_bounds _).1 (clip_bounds _).2

theorem gen_labels_mem {σ : Type} (rng : RNG σ) :
    ∀ (rows : List (String × String × String × ℤ × ℤ)) (s : σ) (r : TripRecord),
      r ∈ (gen_labels rng rows s).1 →
      ∃ noise, r.arrival_time = arrival_minutes r.bus_number r.destination r.day_of_week
        r.time_period r.stop_sequence noise
  | [], _, _, hr => by simp [gen_labels] at hr
  | (b, d, dy, h, st) :: rest, s, r, hr => by
    simp only [gen_labels, List.mem_cons] at hr
    rcases hr with rfl | hr
    · exact ⟨(rng.normal 0 (1/2) s).1, rfl⟩
    · exact gen_labels_mem rng rest _ r hr

theorem validateVal_valid {b d dy : String} {h st : ℤ}
    (hb : b ∈ valid_buses) (hd : d ∈ valid_destinations) (hdy : dy ∈ valid_days)
    (hh0 : 0 ≤ h) (hh1 : h ≤ 23) (hst0 : 1 ≤ st) (hst1 : st ≤ 7) :
    validateVal (.vStr b) (.vStr d) (.vStr dy) (.vInt h) st = none := by
  have hbne : b ≠ "" := by rintro rfl; revert hb; decide
  have hdne : d ≠ "" := by rintro rfl; revert hd; decide
  simp only [validateVal]
  rw [if_neg, if_neg, if_neg]
  · rw [if_neg (by omega : ¬ (h < 0 ∨ 23 < h)), if_neg (by omega : ¬ (st < 1 ∨ 7 < st))]
  · simp only [valMem, not_or, not_not]
    exact hdy
  · simp only [truthy, valMem, not_or, not_not]
    exact ⟨hdne, hd⟩
  · simp only [truthy, valMem, not_or, not_not]
    exact ⟨hbne, hb⟩

theorem validateVal_invalid {b d dy : String} {h st : ℤ}
    (hbad : h < 0 ∨ 23 < h ∨ st < 1 ∨ 7 < st ∨ b ∉ valid_buses ∨ d ∉ valid_destinations ∨
      dy ∉ valid_days) :
    ∃ msg, validateVal (.vStr b) (.vStr d) (.vStr dy) (.vInt h) st = some msg ∧
      ((msg = bus_error_msg ∧ b ∉ valid_buses) ∨
       (msg = destination_error_msg ∧ d ∉ valid_destinations) ∨
       (msg = day_error_msg ∧ dy ∉ valid_days) ∨
       (msg = time_error_msg ∧ (h < 0 ∨ 23 < h)) ∨
       (msg = stop_error_msg ∧ (st < 1 ∨ 7 < st))) := by
  by_cases h1 : ¬ truthy (.vStr b) ∨ ¬ valMem (.vStr b) valid_buses
  · have hbm : b ∉ valid_buses := by
      rcases h1 with hte | hm
      · simp only [truthy, not_not] at hte
        subst hte
        decide
      · simpa [valMem] using hm
    exact ⟨bus_error_msg, by simp [validateVal, h1], Or.inl ⟨rfl, hbm⟩⟩
  by_cases h2 : ¬ truthy (.vStr d) ∨ ¬ valMem (.vStr d) valid_destinations
  · have hdm : d ∉ valid_destinations := by
      rcases h2 with hte | hm
      · simp only [truthy, not_not] at hte
        subst hte
        decide
      · simpa [valMem] using hm
    exact ⟨destination_error_msg, by simp [validateVal, h1, h2], Or.inr (Or.inl ⟨rfl, hdm⟩)⟩
  by_cases h3 : ¬ valMem (.vStr dy) valid_days
  · have hdym : dy ∉ valid_days := by simpa [valMem] using h3
    exact ⟨day_error_msg, by simp [validateVal, h1, h2, h3],
      Or.inr (Or.inr (Or.inl ⟨rfl, hdym⟩))⟩
  by_cases h4 : h < 0 ∨ 23 < h
  · exact ⟨time_error_msg, by simp [validateVal, h1, h2, h3, h4],
      Or.inr (Or.inr (Or.inr (Or.inl ⟨rfl, h4⟩)))⟩
  by_cases h5 : st < 1 ∨ 7 < st
  · exact ⟨stop_error_msg, by simp [validateVal, h1, h2, h3, h4, h5],
      Or.inr (Or.inr (Or.inr (Or.inr ⟨rfl, h5⟩)))⟩
  exfalso
  push_neg at h1 h2 h3
  simp only [truthy, valMem] at h1 h2 h3
  rcases hbad with hc | hc | hc | hc | hc | hc | hc
  · omega
  · omega
  · omega
  · omega
  · exact hc h1.2
  · exact hc h2.2
  · exact hc h3

/-! ## Claim C1 -/

/-- Claim C1 (amended): for every input passing validation whose
categorical values are present in the loaded encoder tables, the predict
operation succeeds (HTTP 200) and the returned predicted arrival time is
the linear model output on the encoded, scaled feature vector, rounded to
two decimal places.  The served value is not clamped to the interval
[1, 20]; see the counterexample `predict_range_counterexample`. -/
theorem predict_valid_input_ok (A : Artifacts) (b d dy : String) (h st : ℤ)
    (hb : b ∈ valid_buses) (hd : d ∈ valid_destinations) (hdy : dy ∈ valid_days)
    (hh0 : 0 ≤ h) (hh1 : h ≤ 23) (hst0 : 1 ≤ st) (hst1 : st ≤ 7)
    (hbe : b ∈ A.bus_encoder) (hde : d ∈ A.destination_encoder) (hdye : dy ∈ A.day_encoder) :
    ∃ body, predict A ⟨some (.vStr b), some (.vStr d), some (.vStr dy), some (.vInt h),
        some (.vInt st)⟩ = .ok body ∧
      body.predicted_arrival_time = roundTo2 (model_predict A.coef A.intercept
        (scaler_transform A.scaler_mean A.scaler_std
          [(A.bus_encoder.indexOf b : ℚ), (A.destination_encoder.indexOf d : ℚ),
           (A.day_encoder.indexOf dy : ℚ), (h : ℚ), (st : ℚ)])) := by
  have hval := validateVal_valid hb hd hdy hh0 hh1 hst0 hst1
  have ht1 : label_transform A.bus_encoder b = .ok (A.bus_encoder.indexOf b) := by
    unfold label_transform; rw [if_pos hbe]
  have ht2 : label_transform A.destination_encoder d =
      .ok (A.destination_encoder.indexOf d) := by
    unfold label_transform; rw [if_pos hde]
  have ht3 : label_transform A.day_encoder dy = .ok (A.day_encoder.indexOf dy) := by
    unfold label_transform; rw [if_pos hdye]
  refine ⟨⟨roundTo2 (model_predict A.coef A.intercept
      (scaler_transform A.scaler_mean A.scaler_std
        [(A.bus_encoder.indexOf b : ℚ), (A.destination_encoder.indexOf d : ℚ),
         (A.day_encoder.indexOf dy : ℚ), (h : ℚ), (st : ℚ)])),
    b, d, dy, h, st,
    "Bus " ++ b ++ " will arrive in approximately " ++
      toString (roundTo2 (model_predict A.coef A.intercept
        (scaler_transform A.scaler_mean A.scaler_std
          [(A.bus_encoder.indexOf b : ℚ), (A.destination_encoder.indexOf d : ℚ),
           (A.day_encoder.indexOf dy : ℚ), (h : ℚ), (st : ℚ)]))) ++ " minutes"⟩,
    ?_, rfl⟩
  simp only [predict, Option.getD_some, pyInt, strOf, intOf, hval, ht1, ht2, ht3]

/-- Witness for `predict_valid_input_ok`: the scenario A request
(BUS001, Nagercoil, Monday, hour 14, stop 3) against a concrete artifact
set whose encoders are fitted on the full vocabularies. -/
theorem predict_valid_input_ok_witness :
    ∃ body, predict demo_artifacts demo_request = .ok body ∧
      body.predicted_arrival_time = roundTo2 (model_predict demo_artifacts.coef
        demo_artifacts.intercept (scaler_transform demo_artifacts.scaler_mean
          demo_artifacts.scaler_std
          [(demo_artifacts.bus_encoder.indexOf "BUS001" : ℚ),
           (demo_artifacts.destination_encoder.indexOf "Nagercoil" : ℚ),
           (demo_artifacts.day_encoder.indexOf "Monday" : ℚ),
           ((14 : ℤ) : ℚ), ((3 : ℤ) : ℚ)])) :=
  predict_valid_input_ok demo_artifacts "BUS001" "Nagercoil" "Monday" 14 3
    (by decide) (by decide) (by decide) (by decide) (by decide) (by decide) (by decide)
    (by with_unfolding_all decide) (by with_unfolding_all decide)
    (by with_unfolding_all decide)

/-- Claim C1 counterexample: the scenario A input (BUS001, Nagercoil,
Monday, hour 14, stop 3) passes validation, yet against an artifact set
satisfying every stated data-model invariant (total sorted encoders,
positive scaler deviations, a linear model) the served prediction is 25,
outside the claimed interval [1, 20] — app.py never clamps the model
output. -/
theorem predict_range_counterexample :
    predicted_of (predict demo_artifacts demo_request) = some 25 ∧ ¬ ((25 : ℚ) ≤ 20) :=
  ⟨by with_unfolding_all rfl, by decide⟩

/-! ## Claim C2 -/

/-- Claim C2: the dataset generator is deterministic — two runs with the
same record count and equal seeded generator states produce identical
datasets, field for field, record for record. -/
theorem generate_dataset_deterministic {σ : Type} (rng : RNG σ) (n : ℕ) (s1 s2 : σ)
    (hs : s1 = s2) :
    generate_dataset rng n s1 = generate_dataset rng n s2 ∧
    ∀ i : ℕ, (generate_dataset rng n s1).1.get? i = (generate_dataset rng n s2).1.get? i := by
  subst hs
  exact ⟨rfl, fun _ => rfl⟩

/-- Witness for `generate_dataset_deterministic` at a concrete generator
and seed. -/
theorem generate_dataset_deterministic_witness :
    generate_dataset constRNG 2 () = generate_dataset constRNG 2 () ∧
    ∀ i : ℕ, (generate_dataset constRNG 2 ()).1.get? i =
      (generate_dataset constRNG 2 ()).1.get? i :=
  generate_dataset_deterministic constRNG 2 () () rfl

/-! ## Claim C3 -/

/-- Claim C3 counterexample: BUS003 is a mapped bus id whose delay is 0,
strictly below the claimed lower bound 0.2 (= 1/5). -/
theorem bus_delay_counterexample :
    "BUS003" ∈ BUS_NUMBERS ∧ bus_delays.lookup "BUS003" = some 0 ∧
      ¬ ((1/5 : ℚ) ≤ bus_delay "BUS003") := by
  with_unfolding_all decide

/-- Claim C3 (amended): every mapped bus id is assigned a delay in
[0, 1.2] (BUS003 has delay 0, below the claimed 0.2), and any unmapped
bus id receives the default 0.5. -/
theorem bus_delay_range :
    (∀ b, b ∈ BUS_NUMBERS → 0 ≤ bus_delay b ∧ bus_delay b ≤ 6/5) ∧
    (∀ b, b ∉ bus_delays.map Prod.fst → bus_delay b = 1/2) := by
  constructor
  · intro b hb
    fin_cases hb <;> constructor <;> with_unfolding_all decide
  · intro b hb
    simp only [bus_delays, List.map_cons, List.map_nil, List.mem_cons, List.not_mem_nil,
      or_false, not_or] at hb
    obtain ⟨e1, e2, e3, e4, e5, e6, e7, e8⟩ := hb
    have b1 : (b == "BUS001") = false := beq_eq_false_iff_ne.2 e1
    have b2 : (b == "BUS002") = false := beq_eq_false_iff_ne.2 e2
    have b3 : (b == "BUS003") = false := beq_eq_false_iff_ne.2 e3
    have b4 : (b == "BUS004") = false := beq_eq_false_iff_ne.2 e4
    have b5 : (b == "BUS005") = false := beq_eq_false_iff_ne.2 e5
    have b6 : (b == "BUS006") = false := beq_eq_false_iff_ne.2 e6
    have b7 : (b == "BUS007") = false := beq_eq_false_iff_ne.2 e7
    have b8 : (b == "BUS008") = false := beq_eq_false_iff_ne.2 e8
    simp [bus_delay, bus_delays, List.lookup, b1, b2, b3, b4, b5, b6, b7, b8]

/-- Witness for `bus_delay_range`: a mapped id (BUS001) and an unmapped
id (BUS999). -/
theorem bus_delay_range_witness :
    (0 ≤ bus_delay "BUS001" ∧ bus_delay "BUS001" ≤ 6/5) ∧ bus_delay "BUS999" = 1/2 :=
  ⟨bus_delay_range.1 "BUS001" (by decide), bus_delay_range.2 "BUS999" (by decide)⟩

/-! ## Claim C4 -/

/-- Claim C4: a request (with all fields present and of the expected
shapes) whose hour is outside [0, 23], whose stop sequence is outside
[1, 7], or whose bus, destination or day is outside its declared
vocabulary, is answered with HTTP 400 carrying the validation message of
a field that is actually invalid in the request — the bus message (which
lists the eight valid buses) only for an invalid bus, the destination
message only for an invalid destination, the day message only for an
invalid day, the hour-range message only for an hour outside [0, 23] and
the stop-range message only for a stop outside [1, 7]; the response is
identical for every artifact set, so no encoder or scaler transform
influences — or is needed for — the failure. -/
theorem predict_invalid_input_client_error (A : Artifacts) (b d dy : String) (h st : ℤ)
    (hbad : h < 0 ∨ 23 < h ∨ st < 1 ∨ 7 < st ∨ b ∉ valid_buses ∨ d ∉ valid_destinations ∨
      dy ∉ valid_days) :
    ∃ msg, predict A ⟨some (.vStr b), some (.vStr d), some (.vStr dy), some (.vInt h),
        some (.vInt st)⟩ = .clientError msg ∧
      ((msg = bus_error_msg ∧ b ∉ valid_buses) ∨
       (msg = destination_error_msg ∧ d ∉ valid_destinations) ∨
       (msg = day_error_msg ∧ dy ∉ valid_days) ∨
       (msg = time_error_msg ∧ (h < 0 ∨ 23 < h)) ∨
       (msg = stop_error_msg ∧ (st < 1 ∨ 7 < st))) ∧
      ∀ A2 : Artifacts, predict A2 ⟨some (.vStr b), some (.vStr d), some (.vStr dy),
        some (.vInt h), some (.vInt st)⟩ = .clientError msg := by
  obtain ⟨msg, hval, hfield⟩ := validateVal_invalid hbad
  refine ⟨msg, ?_, hfield, fun A2 => ?_⟩ <;>
    simp only [predict, Option.getD_some, pyInt, hval]

/-- Witness for `predict_invalid_input_client_error`: hour 24 (scenario C
of the specification) at a concrete artifact set; the returned message is
tied to the offending hour field. -/
theorem predict_invalid_input_client_error_witness :
    ∃ msg, predict empty_artifacts ⟨some (.vStr "BUS001"), some (.vStr "Nagercoil"),
        some (.vStr "Monday"), some (.vInt 24), some (.vInt 3)⟩ = .clientError msg ∧
      ((msg = bus_error_msg ∧ "BUS001" ∉ valid_buses) ∨
       (msg = destination_error_msg ∧ "Nagercoil" ∉ valid_destinations) ∨
       (msg = day_error_msg ∧ "Monday" ∉ valid_days) ∨
       (msg = time_error_msg ∧ ((24 : ℤ) < 0 ∨ 23 < (24 : ℤ))) ∨
       (msg = stop_error_msg ∧ ((3 : ℤ) < 1 ∨ 7 < (3 : ℤ)))) ∧
      ∀ A2 : Artifacts, predict A2 ⟨some (.vStr "BUS001"), some (.vStr "Nagercoil"),
        some (.vStr "Monday"), some (.vInt 24), some (.vInt 3)⟩ = .clientError msg :=
  predict_invalid_input_client_error empty_artifacts "BUS001" "Nagercoil" "Monday" 24 3
    (by decide)

/-! ## Claim C5 -/

/-- Claim C5: every record produced by the dataset generator carries a
label equal to the five additive terms plus the drawn noise, clamped to
[1, 20] and rounded to two decimal places; in particular the label always
lies in [1, 20]. -/
theorem generated_label_clipped_and_bounded {σ : Type} (rng : RNG σ) (n : ℕ) (seed : σ)
    (r : TripRecord) (hr : r ∈ (generate_dataset rng n seed).1) :
    (∃ noise, r.arrival_time = roundTo2 (clip (base_time r.destination +
      stop_delay r.stop_sequence + time_delay r.time_period + day_factor r.day_of_week +
      bus_delay r.bus_number + noise) 1 20)) ∧
    1 ≤ r.arrival_time ∧ r.arrival_time ≤ 20 := by
  unfold generate_dataset at hr
  obtain ⟨noise, hn⟩ := gen_labels_mem rng _ _ r hr
  have hb := arrival_minutes_bounds r.bus_number r.destination r.day_of_week
    r.time_period r.stop_sequence noise
  exact ⟨⟨noise, by rw [hn]; rfl⟩, by rw [hn]; exact hb.1, by rw [hn]; exact hb.2⟩

/-- Witness for `generated_label_clipped_and_bounded`: the single record
generated by `constRNG` (BUS001, Nagercoil, Monday, hour 0, stop 1,
noise 0) has label 4.5. -/
theorem generated_label_clipped_and_bounded_witness :
    (∃ noise, ((9 : ℚ)/2) = roundTo2 (clip (base_time "Nagercoil" + stop_delay 1 +
      time_delay 0 + day_factor "Monday" + bus_delay "BUS001" + noise) 1 20)) ∧
    1 ≤ ((9 : ℚ)/2) ∧ ((9 : ℚ)/2) ≤ 20 :=
  generated_label_clipped_and_bounded constRNG 1 ()
    ⟨"BUS001", "Nagercoil", "Monday", 0, 1, 9/2⟩
    (by with_unfolding_all exact List.Mem.head _)

/-! ## Claim C6 -/

/-- Claim C6: on every hour of [0, 24) the time-of-day delay equals 1.5 on
[6, 12), 0.5 on [12, 18), 2.0 on [18, 21) and 1.0 on the remaining hours;
the four bands cover all 24 hours and are pairwise disjoint. -/
theorem time_delay_bands :
    ∀ h : Fin 24,
      ((6 ≤ (h.val : ℤ) ∧ (h.val : ℤ) < 12) → time_delay (h.val : ℤ) = 3/2) ∧
      ((12 ≤ (h.val : ℤ) ∧ (h.val : ℤ) < 18) → time_delay (h.val : ℤ) = 1/2) ∧
      ((18 ≤ (h.val : ℤ) ∧ (h.val : ℤ) < 21) → time_delay (h.val : ℤ) = 2) ∧
      (((h.val : ℤ) < 6 ∨ 21 ≤ (h.val : ℤ)) → time_delay (h.val : ℤ) = 1) ∧
      ((6 ≤ (h.val : ℤ) ∧ (h.val : ℤ) < 12) ∨ (12 ≤ (h.val : ℤ) ∧ (h.val : ℤ) < 18) ∨
        (18 ≤ (h.val : ℤ) ∧ (h.val : ℤ) < 21) ∨ ((h.val : ℤ) < 6 ∨ 21 ≤ (h.val : ℤ))) ∧
      (¬ ((6 ≤ (h.val : ℤ) ∧ (h.val : ℤ) < 12) ∧ (12 ≤ (h.val : ℤ) ∧ (h.val : ℤ) < 18)) ∧
       ¬ ((6 ≤ (h.val : ℤ) ∧ (h.val : ℤ) < 12) ∧ (18 ≤ (h.val : ℤ) ∧ (h.val : ℤ) < 21)) ∧
       ¬ ((12 ≤ (h.val : ℤ) ∧ (h.val : ℤ) < 18) ∧ (18 ≤ (h.val : ℤ) ∧ (h.val : ℤ) < 21)) ∧
       ¬ ((6 ≤ (h.val : ℤ) ∧ (h.val : ℤ) < 12) ∧ ((h.val : ℤ) < 6 ∨ 21 ≤ (h.val : ℤ))) ∧
       ¬ ((12 ≤ (h.val : ℤ) ∧ (h.val : ℤ) < 18) ∧ ((h.val : ℤ) < 6 ∨ 21 ≤ (h.val : ℤ))) ∧
       ¬ ((18 ≤ (h.val : ℤ) ∧ (h.val : ℤ) < 21) ∧ ((h.val : ℤ) < 6 ∨ 21 ≤ (h.val : ℤ)))) := by
  with_unfolding_all decide

/-- Witness for `time_delay_bands`: one hour inside each band. -/
theorem time_delay_bands_witness :
    time_delay 7 = 3/2 ∧ time_delay 13 = 1/2 ∧ time_delay 19 = 2 ∧ time_delay 23 = 1 :=
  ⟨(time_delay_bands ⟨7, by decide⟩).1 (by decide),
   (time_delay_bands ⟨13, by decide⟩).2.1 (by decide),
   (time_delay_bands ⟨19, by decide⟩).2.2.1 (by decide),
   (time_delay_bands ⟨23, by decide⟩).2.2.2.1 (by decide)⟩

/-! ## Claim C7 -/

/-- Claim C7: for every fitted encoding table and every value in the data
it was fitted on, the inverse transform is an exact left inverse of the
forward transform. -/
theorem encoder_round_trip (values : List String) (v : String) (hv : v ∈ values) :
    ∃ code, label_transform (label_fit values) v = .ok code ∧
      label_inverse (label_fit values) code = some v := by
  have hm : v ∈ label_fit values := by
    unfold label_fit
    exact List.mem_mergeSort.2 (List.mem_dedup.2 hv)
  refine ⟨(label_fit values).indexOf v, ?_, ?_⟩
  · unfold label_transform; rw [if_pos hm]
  · unfold label_inverse; exact List.indexOf_get? hm

/-- Witness for `encoder_round_trip` on a concrete unsorted list with a
duplicate. -/
theorem encoder_round_trip_witness :
    ∃ code, label_transform (label_fit ["Tuesday", "Monday", "Tuesday"]) "Monday" =
        .ok code ∧
      label_inverse (label_fit ["Tuesday", "Monday", "Tuesday"]) code = some "Monday" :=
  encoder_round_trip ["Tuesday", "Monday", "Tuesday"] "Monday" (by decide)

/-! ## Claim C8 -/

/-- Claim C8: prediction is pure — two calls of the predict operation on
equal inputs against equal artifact sets return identical responses, and
the call produces nothing but the response (the embedded operation is a
function of the artifact set and the request alone). -/
theorem predict_pure (A1 A2 : Artifacts) (req1 req2 : RawRequest)
    (hA : A1 = A2) (hreq : req1 = req2) : predict A1 req1 = predict A2 req2 := by
  subst hA
  subst hreq
  rfl

/-- Witness for `predict_pure` at a concrete artifact set and request. -/
theorem predict_pure_witness :
    predict demo_artifacts demo_request = predict demo_artifacts demo_request :=
  predict_pure demo_artifacts demo_artifacts demo_request demo_request rfl rfl

/-! ## Claim C9 -/

/-- Claim C9: a request without the day-of-week field is processed exactly
as the same request with day-of-week "Monday": the `dict.get` default is
substituted before validation, so the absent field never fails
validation. -/
theorem predict_day_of_week_default (A : Artifacts) (bn dn tp sp : Option Val) :
    predict A ⟨bn, dn, none, tp, sp⟩ = predict A ⟨bn, dn, some (.vStr "Monday"), tp, sp⟩ :=
  rfl

/-! ## Claim C10 -/

/-- Claim C10: when the stop-sequence field is present but Python
`int(...)` cannot parse it, the coercion at app.py line 67 raises before
any validation runs and the surrounding `try` reports HTTP 500 with the
generic prediction-error message — never a 400 validation response —
whatever the other fields and the loaded artifacts are. -/
theorem predict_unparsable_stop_server_error (A : Artifacts)
    (bn dn dyn tpn : Option Val) (v : Val) (e : String) (hv : pyInt v = .error e) :
    predict A ⟨bn, dn, dyn, tpn, some v⟩ = .serverError ("Prediction error: " ++ e) := by
  simp [predict, hv]

/-- Witness for `predict_unparsable_stop_server_error`: stop sequence
"abc" with every other field valid. -/
theorem predict_unparsable_stop_server_error_witness :
    predict empty_artifacts ⟨some (.vStr "BUS001"), some (.vStr "Nagercoil"),
        some (.vStr "Monday"), some (.vInt 14), some (.vStr "abc")⟩ =
      .serverError ("Prediction error: " ++ "invalid literal for int() with base 10: abc") :=
  predict_unparsable_stop_server_error empty_artifacts _ _ _ _ (.vStr "abc") _ rfl

end SmartBus
